import Mathlib

/-
Verification of the FLIP fluid-simulation orchestrator
(`2dFluidSimulation/simulator/FlipParticlesSimulation.h`) and the reference
driver loop (`TestSurfaceTension/testsurfacetension.cpp`).

`Real` is embedded as `ℚ`.  Class bodies that the repository only declares
(grids, level sets, particle sets, `compute_volume`) are modelled from the
spec, as marked on each definition; everything else is translated directly
from the two source files.
-/

/-- Grid spacing and world-space offset shared by all fields of one simulation
instance.  Modelled from the spec: `Transform.h` is not under `src/`; two
Transforms are matched iff spacing and offset are identical. -/
structure Transform where
  dx : ℚ
  offset : ℚ × ℚ
  deriving DecidableEq

/-- Modelled from the spec: the Marker Particle Set (`MarkerParticles.h` is not
under `src/`).  The record keeps the four construction parameters the
orchestrator passes: seeding radius, samples per cell, band factor, and
whether particle velocities are tracked for FLIP transfer. -/
structure MarkerParticles where
  radius : ℚ
  samples : ℕ
  band : ℚ
  track_velocity : Bool
  deriving DecidableEq

/-- Modelled from the spec: a cell-centered sampled field over a
fixed-resolution domain (`ScalarGrid.h` is not under `src/`): a Transform, a
resolution and the cell samples. -/
structure ScalarGrid where
  xform : Transform
  nx : ℕ × ℕ
  data : List (List ℚ)
  deriving DecidableEq

/-- Modelled from the spec: a ScalarGrid created from a resolution and a
uniform fill value. -/
def ScalarGrid.construct (xform : Transform) (nx : ℕ × ℕ) (fill : ℚ) : ScalarGrid :=
  ⟨xform, nx, List.replicate nx.1 (List.replicate nx.2 fill)⟩

def ScalarGrid.size (g : ScalarGrid) : ℕ × ℕ := g.nx

/-- Sampling layout selector of `VectorGrid` (the header passes
`VectorGridSettings::STAGGERED`). -/
inductive VectorGridSettings where
  | STAGGERED
  | SAMPLED
  deriving DecidableEq

/-- Modelled from the spec: a face-centered (staggered) sampled vector field
(`VectorGrid.h` is not under `src/`).  A staggered grid of resolution
`(nx, ny)` holds `(nx+1) * ny` horizontal-face samples (`u`) and
`nx * (ny+1)` vertical-face samples (`v`).  The constructor that takes a fill
value fills every face sample with it; the constructor without one leaves the
samples undefined (`none`). -/
structure VectorGrid where
  xform : Transform
  nx : ℕ × ℕ
  settings : VectorGridSettings
  u : Option (List (List ℚ))
  v : Option (List (List ℚ))
  deriving DecidableEq

/-- VectorGrid constructor without a fill value (header line 44). -/
def VectorGrid.construct_nofill (xform : Transform) (nx : ℕ × ℕ)
    (settings : VectorGridSettings) : VectorGrid :=
  ⟨xform, nx, settings, none, none⟩

/-- VectorGrid constructor with an explicit fill value (header line 45). -/
def VectorGrid.construct_fill (xform : Transform) (nx : ℕ × ℕ) (fill : ℚ)
    (settings : VectorGridSettings) : VectorGrid :=
  ⟨xform, nx, settings,
    some (List.replicate (nx.1 + 1) (List.replicate nx.2 fill)),
    some (List.replicate nx.1 (List.replicate (nx.2 + 1) fill))⟩

/-- Modelled from the spec: a signed-distance field over the grid with a
narrow-band half-width in cells (`LevelSet2d.h` is not under `src/`); negative
inside the tracked region.  A freshly constructed level set tracks nothing:
every sample sits at the background outside distance `nb * dx`. -/
structure LevelSet2D where
  xform : Transform
  nx : ℕ × ℕ
  nb : ℕ
  phi : List (List ℚ)
  deriving DecidableEq

def LevelSet2D.construct (xform : Transform) (nx : ℕ × ℕ) (nb : ℕ) : LevelSet2D :=
  ⟨xform, nx, nb, List.replicate nx.1 (List.replicate nx.2 ((nb : ℚ) * xform.dx))⟩

def LevelSet2D.dx (ls : LevelSet2D) : ℚ := ls.xform.dx

def LevelSet2D.size (ls : LevelSet2D) : ℕ × ℕ := ls.nx

/-- Modelled from the spec: two Transforms are matched iff spacing and offset
are identical; a level set and a grid are matched when additionally their
resolutions agree. -/
def LevelSet2D.is_matched (ls : LevelSet2D) (g : ScalarGrid) : Bool :=
  decide (ls.xform = g.xform) && decide (ls.size = g.size)

/-- Modelled from the spec: `estimate_volume` supersamples cells and counts the
inside fraction; the result depends only on the current distance values and
the sampling resolution.  Inside samples are those with negative signed
distance; each counted sample contributes an area of `dx * dx`. -/
def LevelSet2D.estimate_volume (ls : LevelSet2D) : ℚ :=
  ((ls.phi.map (fun row => ((row.filter (fun d => decide (d < 0))).length : ℚ))).sum)
    * ls.xform.dx * ls.xform.dx

/-- State of the orchestrator (`FlipParticlesSimulation`, header lines
32-142): simulation containers, particle sets, feature flags and tuning
scalars.  `m_variableviscosity` is default-constructed in C++ and holds no
injected field until a `set_viscosity` call, hence `Option`;
`m_target_volume` and `m_accum_error` are left uninitialized by the
constructor, modelled as `Option` values that stay `none` until first
assigned. -/
structure FlipParticlesSimulation where
  m_vel : VectorGrid
  m_collision_vel : VectorGrid
  m_surface : LevelSet2D
  m_collision : LevelSet2D
  m_variableviscosity : Option ScalarGrid
  m_particles : MarkerParticles
  m_air_volume : Bool
  m_air_surface : LevelSet2D
  m_air_particles : MarkerParticles
  m_xform : Transform
  m_moving_solids : Bool
  m_solve_viscosity : Bool
  m_enforce_bubbles : Bool
  m_volume_correction : Bool
  m_st_scale : ℚ
  m_target_volume : Option ℚ
  m_accum_error : Option ℚ
  deriving DecidableEq

/-- Constructor (header lines 35-54): the initializer list stores the
transform and clears the five feature flags and the surface-tension scale; the
body builds the main velocity grid without a fill value, the
collision-velocity grid filled with 0, three level sets with narrow band `nb`,
and two particle sets seeded at half the surface grid spacing.
`m_target_volume` and `m_accum_error` are not initialized. -/
def FlipParticlesSimulation.construct (xform : Transform) (nx : ℕ × ℕ) (nb : ℕ) :
    FlipParticlesSimulation :=
  let surface := LevelSet2D.construct xform nx nb
  { m_vel := VectorGrid.construct_nofill xform nx VectorGridSettings.STAGGERED
    m_collision_vel := VectorGrid.construct_fill xform nx 0 VectorGridSettings.STAGGERED
    m_surface := surface
    m_collision := LevelSet2D.construct xform nx nb
    m_variableviscosity := none
    m_particles := ⟨surface.dx / 2, 4, 2, true⟩
    m_air_volume := false
    m_air_surface := LevelSet2D.construct xform nx nb
    m_air_particles := ⟨surface.dx / 2, 4, 2, false⟩
    m_xform := xform
    m_moving_solids := false
    m_solve_viscosity := false
    m_enforce_bubbles := false
    m_volume_correction := false
    m_st_scale := 0
    m_target_volume := none
    m_accum_error := none }

/-- Modelled from the spec: `compute_volume(liquid_or_air)` delegates to Level
Set volume estimation (only its declaration, header lines 105-106, is under
`src/`): the liquid volume comes from the liquid surface, the air volume from
the air-phase surface.  It is a `const` query: it takes the state and returns
only a number. -/
def FlipParticlesSimulation.compute_volume (s : FlipParticlesSimulation)
    (liquid : Bool) : ℚ :=
  if liquid then s.m_surface.estimate_volume else s.m_air_surface.estimate_volume

/-- Header lines 60-63: store the surface-tension scale. -/
def FlipParticlesSimulation.set_surface_tension (s : FlipParticlesSimulation)
    (st_scale : ℚ) : FlipParticlesSimulation :=
  { s with m_st_scale := st_scale }

/-- Header lines 65-68: raise the bubble-enforcement flag. -/
def FlipParticlesSimulation.set_enforce_bubbles (s : FlipParticlesSimulation) :
    FlipParticlesSimulation :=
  { s with m_enforce_bubbles := true }

/-- Header lines 70-75: raise the volume-correction flag, then capture the
current liquid volume as the target, then clear the accumulated error. -/
def FlipParticlesSimulation.set_volume_correction (s : FlipParticlesSimulation) :
    FlipParticlesSimulation :=
  let s1 := { s with m_volume_correction := true }
  let s2 := { s1 with m_target_volume := some (s1.compute_volume true) }
  { s2 with m_accum_error := some 0 }

/-- Header lines 77-82: `assert(m_surface.is_matched(visc_coeff))`, then store
the injected field and raise the viscosity flag.  The assertion is embedded as
a fallible result: `none` is the contract failure. -/
def FlipParticlesSimulation.set_viscosity_field (s : FlipParticlesSimulation)
    (visc_coeff : ScalarGrid) : Option FlipParticlesSimulation :=
  if s.m_surface.is_matched visc_coeff then
    some { s with m_variableviscosity := some visc_coeff, m_solve_viscosity := true }
  else
    none

/-- Header lines 84-88: build a uniform viscosity grid over the surface grid's
transform and size and raise the viscosity flag. -/
def FlipParticlesSimulation.set_viscosity (s : FlipParticlesSimulation)
    (visc_coeff : ℚ) : FlipParticlesSimulation :=
  { s with
      m_variableviscosity :=
        some (ScalarGrid.construct s.m_surface.xform s.m_surface.size visc_coeff)
      m_solve_viscosity := true }

/-- Header line 84: the uniform coefficient defaults to 1. -/
def FlipParticlesSimulation.set_viscosity_default (s : FlipParticlesSimulation) :
    FlipParticlesSimulation :=
  s.set_viscosity 1

/-- Driver frame time (`testsurfacetension.cpp` line 27). -/
def g_dt : ℚ := 1 / 120

/-- Driver grid spacing (`testsurfacetension.cpp` line 29). -/
def g_dx : ℚ := 1 / 40

/-- One `run_simulation` invocation of the driver loop together with the `dt`
passed to the `add_force` call just before it (`testsurfacetension.cpp` lines
60-61: the force is applied with the frame time `g_dt`, the step with the
computed substep). -/
structure SimCall where
  force_dt : ℚ
  run_dt : ℚ
  deriving DecidableEq

/-- Substep size computation (`testsurfacetension.cpp` lines 43-53): when the
velocity magnitude exceeds `1E-10`, the CFL candidate `3 * dx * dx / velmag`
is used, throttled down to the remaining frame time when it exceeds it;
otherwise the whole remaining frame time is taken. -/
def substep_dt (velmag frame_time : ℚ) : ℚ :=
  if velmag > 1 / 10 ^ 10 then
    let dt := 3 * g_dx * g_dx / velmag
    if dt > g_dt - frame_time then g_dt - frame_time else dt
  else g_dt - frame_time

/-- Velocity magnitude queried at the top of a substep
(`testsurfacetension.cpp` line 40): 1 on the very first substep
(`g_first_sim`), afterwards the simulation's `max_vel_mag`, supplied here by
the sequence `vm` since the grid code is outside `src/`. -/
def step_velmag (vm : ℕ → ℚ) (first : Bool) (k : ℕ) : ℚ :=
  if first then 1 else vm k

/-- Driver substep loop (`testsurfacetension.cpp` lines 36-62), with explicit
fuel.  The loop runs while the accumulated `frame_time` is below `g_dt`,
computes the substep, accumulates it, breaks on a non-positive substep before
any simulation call, and otherwise records the `add_force`/`run_simulation`
pair and continues.  It returns the final accumulated frame time and the list
of simulation calls made. -/
def display_loop (vm : ℕ → ℚ) : ℕ → ℚ → Bool → List SimCall → ℚ × List SimCall
  | 0, frame_time, _, calls => (frame_time, calls)
  | fuel + 1, frame_time, first, calls =>
    if frame_time < g_dt then
      let dt := substep_dt (step_velmag vm first calls.length) frame_time
      let frame_time2 := frame_time + dt
      if dt ≤ 0 then (frame_time2, calls)
      else display_loop vm fuel frame_time2 false (calls ++ [⟨g_dt, dt⟩])
    else (frame_time, calls)

/-- Concrete transform used by witnesses: the driver's spacing `0.025` with a
zero offset (`testsurfacetension.cpp` line 104). -/
def t0 : Transform := ⟨1 / 40, (0, 0)⟩

/-- Concrete small simulation state used by witnesses. -/
def sim0 : FlipParticlesSimulation := FlipParticlesSimulation.construct t0 (2, 2) 1

/-- Concrete viscosity field matched with `sim0`'s surface. -/
def visc0 : ScalarGrid := ScalarGrid.construct t0 (2, 2) (1 / 2)

/-- Constant velocity-magnitude sequence used by witnesses. -/
def vm0 : ℕ → ℚ := fun _ => 0

/-
Theorems.
-/

/-- Claim C1: `set_volume_correction()` sets the volume-correction flag to
true, captures the current liquid volume (`compute_volume(true)` on the state
at the moment of the call) as the target volume, and resets the accumulated
volume error to exactly zero. -/
theorem set_volume_correction_spec (s : FlipParticlesSimulation) :
    (s.set_volume_correction).m_volume_correction = true ∧
    (s.set_volume_correction).m_target_volume = some (s.compute_volume true) ∧
    (s.set_volume_correction).m_accum_error = some 0 :=
  ⟨rfl, rfl, rfl⟩

/-- Claim C7: on a freshly constructed simulation the target-volume and
accumulated-error fields hold no defined value (the constructor does not
initialize them), and they receive well-defined values exactly when
`set_volume_correction` is called, initialized from the current liquid
volume. -/
theorem volume_fields_lifecycle (xform : Transform) (nx : ℕ × ℕ) (nb : ℕ)
    (s : FlipParticlesSimulation) :
    (FlipParticlesSimulation.construct xform nx nb).m_target_volume = none ∧
    (FlipParticlesSimulation.construct xform nx nb).m_accum_error = none ∧
    (s.set_volume_correction).m_target_volume = some (s.compute_volume true) ∧
    (s.set_volume_correction).m_accum_error = some 0 :=
  ⟨rfl, rfl, rfl, rfl⟩

/-- Claim C8: `set_surface_tension(scale)` stores exactly the given scale as
the curvature-force coefficient and changes no other field of the orchestrator
state; a scale of 0 leaves the coefficient equal to its value at
construction, namely 0. -/
theorem set_surface_tension_frame (s : FlipParticlesSimulation) (st_scale : ℚ)
    (xform : Transform) (nx : ℕ × ℕ) (nb : ℕ) :
    (s.set_surface_tension st_scale).m_st_scale = st_scale ∧
    (s.set_surface_tension st_scale).m_vel = s.m_vel ∧
    (s.set_surface_tension st_scale).m_collision_vel = s.m_collision_vel ∧
    (s.set_surface_tension st_scale).m_surface = s.m_surface ∧
    (s.set_surface_tension st_scale).m_collision = s.m_collision ∧
    (s.set_surface_tension st_scale).m_variableviscosity = s.m_variableviscosity ∧
    (s.set_surface_tension st_scale).m_particles = s.m_particles ∧
    (s.set_surface_tension st_scale).m_air_volume = s.m_air_volume ∧
    (s.set_surface_tension st_scale).m_air_surface = s.m_air_surface ∧
    (s.set_surface_tension st_scale).m_air_particles = s.m_air_particles ∧
    (s.set_surface_tension st_scale).m_xform = s.m_xform ∧
    (s.set_surface_tension st_scale).m_moving_solids = s.m_moving_solids ∧
    (s.set_surface_tension st_scale).m_solve_viscosity = s.m_solve_viscosity ∧
    (s.set_surface_tension st_scale).m_enforce_bubbles = s.m_enforce_bubbles ∧
    (s.set_surface_tension st_scale).m_volume_correction = s.m_volume_correction ∧
    (s.set_surface_tension st_scale).m_target_volume = s.m_target_volume ∧
    (s.set_surface_tension st_scale).m_accum_error = s.m_accum_error ∧
    (s.set_surface_tension 0).m_st_scale =
      (FlipParticlesSimulation.construct xform nx nb).m_st_scale :=
  ⟨rfl, rfl, rfl, rfl, rfl, rfl, rfl, rfl, rfl, rfl, rfl, rfl, rfl, rfl, rfl,
   rfl, rfl, rfl⟩

/-- Claim C9: for every Transform, grid resolution and narrow-band width, a
freshly constructed `FlipParticlesSimulation` has all five boolean feature
flags (moving solids, viscosity solve, bubble enforcement, volume correction,
air tracking) set to false and the surface-tension scale set to 0. -/
theorem construct_flags_cleared (xform : Transform) (nx : ℕ × ℕ) (nb : ℕ) :
    (FlipParticlesSimulation.construct xform nx nb).m_moving_solids = false ∧
    (FlipParticlesSimulation.construct xform nx nb).m_solve_viscosity = false ∧
    (FlipParticlesSimulation.construct xform nx nb).m_enforce_bubbles = false ∧
    (FlipParticlesSimulation.construct xform nx nb).m_volume_correction = false ∧
    (FlipParticlesSimulation.construct xform nx nb).m_air_volume = false ∧
    (FlipParticlesSimulation.construct xform nx nb).m_st_scale = 0 :=
  ⟨rfl, rfl, rfl, rfl, rfl, rfl⟩

lemma substep_dt_le_remaining (velmag frame_time : ℚ) :
    substep_dt velmag frame_time ≤ g_dt - frame_time := by
  simp only [substep_dt]
  split_ifs with h1 h2
  · exact le_refl _
  · exact le_of_not_lt h2
  · exact le_refl _

lemma substep_dt_le_cfl (velmag frame_time : ℚ) (h : velmag > 1 / 10 ^ 10) :
    substep_dt velmag frame_time ≤ 3 * g_dx * g_dx / velmag := by
  simp only [substep_dt, if_pos h]
  split_ifs with h2
  · exact le_of_lt h2
  · exact le_refl _

/-- Claim C2: in the driver's substep loop, whenever the queried maximum
velocity magnitude exceeds `1E-10`, the computed substep satisfies
`velmag * dt ≤ 3 * dx` (the fastest velocity crosses at most 3 cells), and
the substep never exceeds the CFL candidate `3 * dx * dx / velmag` from which
it may only be throttled further down. -/
theorem display_cfl_bound (velmag frame_time : ℚ)
    (h : velmag > 1 / 10 ^ 10) :
    velmag * substep_dt velmag frame_time ≤ 3 * g_dx ∧
    substep_dt velmag frame_time ≤ 3 * g_dx * g_dx / velmag := by
  have hv : (0 : ℚ) < velmag := lt_trans (by norm_num) h
  have hcfl := substep_dt_le_cfl velmag frame_time h
  refine ⟨?_, hcfl⟩
  have hmul : velmag * substep_dt velmag frame_time ≤
      velmag * (3 * g_dx * g_dx / velmag) :=
    mul_le_mul_of_nonneg_left hcfl (le_of_lt hv)
  have hcanc : velmag * (3 * g_dx * g_dx / velmag) = 3 * g_dx * g_dx := by
    rw [mul_comm]
    exact div_mul_cancel₀ _ (ne_of_gt hv)
  calc velmag * substep_dt velmag frame_time
      ≤ 3 * g_dx * g_dx := by rw [hcanc] at hmul; exact hmul
    _ ≤ 3 * g_dx := by norm_num [g_dx]

/-- Witness for C2 at velocity magnitude 1 and frame time 0. -/
theorem display_cfl_bound_witness :
    (1 : ℚ) * substep_dt 1 0 ≤ 3 * g_dx ∧
    substep_dt 1 0 ≤ 3 * g_dx * g_dx / 1 :=
  display_cfl_bound 1 0 (by norm_num)

lemma display_loop_inv (vm : ℕ → ℚ) :
    ∀ (fuel : ℕ) (frame_time : ℚ) (first : Bool) (calls : List SimCall),
      frame_time ≤ g_dt →
      (∀ c ∈ calls, 0 < c.force_dt ∧ 0 < c.run_dt) →
      (display_loop vm fuel frame_time first calls).1 ≤ g_dt ∧
      ∀ c ∈ (display_loop vm fuel frame_time first calls).2,
        0 < c.force_dt ∧ 0 < c.run_dt := by
  intro fuel
  induction fuel with
  | zero =>
    intro frame_time first calls hft hcalls
    exact ⟨hft, hcalls⟩
  | succ n ih =>
    intro frame_time first calls hft hcalls
    have hrem := substep_dt_le_remaining (step_velmag vm first calls.length) frame_time
    simp only [display_loop]
    split_ifs with hlt hdt
    · refine ⟨?_, hcalls⟩
      show frame_time + substep_dt (step_velmag vm first calls.length) frame_time ≤ g_dt
      linarith
    · apply ih
      · linarith
      · intro c hc
        rcases List.mem_append.mp hc with hmem | hmem
        · exact hcalls c hmem
        · have hc2 : c = ⟨g_dt, substep_dt (step_velmag vm first calls.length) frame_time⟩ := by
            simpa using hmem
          refine hc2 ▸ ⟨by norm_num [g_dt], ?_⟩
          exact lt_of_not_le hdt
    · exact ⟨hft, hcalls⟩

/-- Claim C5: starting a frame at accumulated time 0, the driver's substep
loop never invokes `run_simulation` (nor `add_force`) with a non-positive
`dt` — a non-positive computed substep breaks out before any simulation call —
and the accumulated substep time never exceeds the fixed frame time `g_dt`,
for every sequence of queried velocity magnitudes and every fuel bound. -/
theorem display_loop_safety (vm : ℕ → ℚ) (fuel : ℕ) :
    (display_loop vm fuel 0 true []).1 ≤ g_dt ∧
    ∀ c ∈ (display_loop vm fuel 0 true []).2,
      0 < c.force_dt ∧ 0 < c.run_dt :=
  display_loop_inv vm fuel 0 true [] (by norm_num [g_dt]) (by simp)

/-- Witness for C5: with one unit of fuel the loop makes exactly the call
`add_force` at `1/120` and `run_simulation` at `3/1600`, both positive. -/
theorem display_loop_safety_witness :
    0 < (SimCall.mk (1 / 120) (3 / 1600)).force_dt ∧
    0 < (SimCall.mk (1 / 120) (3 / 1600)).run_dt :=
  (display_loop_safety vm0 1).2 ⟨1 / 120, 3 / 1600⟩ (by
    norm_num [display_loop, substep_dt, step_velmag, g_dt, g_dx, vm0])

/-- Claim C3: `set_viscosity` with a spatially varying field whose Transform
or grid size does not match the internal liquid surface fails fast (the
embedded assertion yields `none`); under a matched Transform and size the call
succeeds, stores the field and raises the viscosity-solve flag. -/
theorem set_viscosity_field_spec (s : FlipParticlesSimulation)
    (visc_coeff : ScalarGrid) :
    (s.m_surface.xform = visc_coeff.xform ∧ s.m_surface.size = visc_coeff.size →
      s.set_viscosity_field visc_coeff =
        some { s with m_variableviscosity := some visc_coeff,
                      m_solve_viscosity := true }) ∧
    (¬(s.m_surface.xform = visc_coeff.xform ∧ s.m_surface.size = visc_coeff.size) →
      s.set_viscosity_field visc_coeff = none) := by
  constructor
  · rintro ⟨h1, h2⟩
    have hm : s.m_surface.is_matched visc_coeff = true := by
      simp [LevelSet2D.is_matched, h1, h2]
    simp [FlipParticlesSimulation.set_viscosity_field, hm]
  · intro h
    have hm : s.m_surface.is_matched visc_coeff = false := by
      simp only [LevelSet2D.is_matched, Bool.and_eq_false_iff, decide_eq_false_iff_not]
      by_cases h1 : s.m_surface.xform = visc_coeff.xform
      · exact Or.inr (fun h2 => h (And.intro h1 h2))
      · exact Or.inl h1
    simp [FlipParticlesSimulation.set_viscosity_field, hm]

/-- Witness for C3: the matched concrete field `visc0` is accepted, stored and
enables the viscosity solve. -/
theorem set_viscosity_field_spec_witness :
    sim0.set_viscosity_field visc0 =
      some { sim0 with m_variableviscosity := some visc0,
                       m_solve_viscosity := true } :=
  (set_viscosity_field_spec sim0 visc0).1 ⟨rfl, rfl⟩

/-- Claim C4: `compute_volume` is deterministic and history-free: it is a
query from the state to a number (it modifies nothing), and two invocations on
states with equal level-set surfaces and the same liquid-or-air argument
return equal results, whatever the rest of the two states holds. -/
theorem compute_volume_deterministic (s1 s2 : FlipParticlesSimulation)
    (liquid : Bool)
    (hs : s1.m_surface = s2.m_surface) (ha : s1.m_air_surface = s2.m_air_surface) :
    s1.compute_volume liquid = s2.compute_volume liquid := by
  simp [FlipParticlesSimulation.compute_volume, hs, ha]

/-- Witness for C4: two distinct states (they differ in the surface-tension
scale) with equal surfaces yield the same liquid volume. -/
theorem compute_volume_deterministic_witness :
    sim0.compute_volume true = (sim0.set_surface_tension 5).compute_volume true :=
  compute_volume_deterministic sim0 (sim0.set_surface_tension 5) true rfl rfl

/-- Claim C6: the uniform-coefficient `set_viscosity` (default coefficient 1)
always succeeds: it stores a viscosity grid sharing the internal surface's
Transform and size, uniformly filled with the coefficient, and raises the
viscosity-solve flag. -/
theorem set_viscosity_uniform_spec (s : FlipParticlesSimulation)
    (visc_coeff : ℚ) :
    (s.set_viscosity visc_coeff).m_solve_viscosity = true ∧
    (s.set_viscosity visc_coeff).m_variableviscosity =
      some (ScalarGrid.construct s.m_surface.xform s.m_surface.size visc_coeff) ∧
    (∀ row ∈ (ScalarGrid.construct s.m_surface.xform s.m_surface.size visc_coeff).data,
      ∀ q ∈ row, q = visc_coeff) ∧
    s.set_viscosity_default = s.set_viscosity 1 := by
  refine ⟨rfl, rfl, ?_, rfl⟩
  intro row hrow q hq
  simp only [ScalarGrid.construct] at hrow
  have hrow2 : row = List.replicate s.m_surface.size.2 visc_coeff :=
    List.eq_of_mem_replicate hrow
  rw [hrow2] at hq
  exact List.eq_of_mem_replicate hq

/-- Witness for C6 at `sim0` with coefficient 2: the flag is raised and the
sample row of the constructed grid evaluates to the coefficient. -/
theorem set_viscosity_uniform_spec_witness :
    (sim0.set_viscosity 2).m_solve_viscosity = true ∧ (2 : ℚ) = 2 :=
  ⟨(set_viscosity_uniform_spec sim0 2).1,
   (set_viscosity_uniform_spec sim0 2).2.2.1 (List.replicate 2 2)
     (by simp [sim0, FlipParticlesSimulation.construct, LevelSet2D.construct,
               LevelSet2D.size, ScalarGrid.construct])
     2 (by simp)⟩

/-- Claim C10: after construction the collision-velocity staggered grid is
built with an explicit fill value of 0, so it is uniformly zero at every
horizontal- and vertical-face sample, whereas the main velocity grid is
constructed without a fill value (its samples are undefined); both share the
simulation's Transform and resolution. -/
theorem construct_velocity_grids (xform : Transform) (nx : ℕ × ℕ) (nb : ℕ) :
    (FlipParticlesSimulation.construct xform nx nb).m_collision_vel.u =
      some (List.replicate (nx.1 + 1) (List.replicate nx.2 (0 : ℚ))) ∧
    (FlipParticlesSimulation.construct xform nx nb).m_collision_vel.v =
      some (List.replicate nx.1 (List.replicate (nx.2 + 1) (0 : ℚ))) ∧
    (∀ row ∈ List.replicate (nx.1 + 1) (List.replicate nx.2 (0 : ℚ)),
      ∀ q ∈ row, q = 0) ∧
    (∀ row ∈ List.replicate nx.1 (List.replicate (nx.2 + 1) (0 : ℚ)),
      ∀ q ∈ row, q = 0) ∧
    (FlipParticlesSimulation.construct xform nx nb).m_vel.u = none ∧
    (FlipParticlesSimulation.construct xform nx nb).m_vel.v = none ∧
    (FlipParticlesSimulation.construct xform nx nb).m_vel.xform = xform ∧
    (FlipParticlesSimulation.construct xform nx nb).m_collision_vel.xform = xform ∧
    (FlipParticlesSimulation.construct xform nx nb).m_vel.nx = nx ∧
    (FlipParticlesSimulation.construct xform nx nb).m_collision_vel.nx = nx := by
  refine ⟨rfl, rfl, ?_, ?_, rfl, rfl, rfl, rfl, rfl, rfl⟩
  · intro row hrow q hq
    have hrow2 : row = List.replicate nx.2 (0 : ℚ) :=
      List.eq_of_mem_replicate hrow
    rw [hrow2] at hq
    exact List.eq_of_mem_replicate hq
  · intro row hrow q hq
    have hrow2 : row = List.replicate (nx.2 + 1) (0 : ℚ) :=
      List.eq_of_mem_replicate hrow
    rw [hrow2] at hq
    exact List.eq_of_mem_replicate hq

/-- Witness for C10 at the concrete driver transform and a 2-by-2 resolution:
the main velocity grid has undefined samples and a face sample of the
collision-velocity grid evaluates to 0. -/
theorem construct_velocity_grids_witness :
    (0 : ℚ) = 0 ∧ (FlipParticlesSimulation.construct t0 (2, 2) 1).m_vel.u = none :=
  ⟨(construct_velocity_grids t0 (2, 2) 1).2.2.1 (List.replicate 2 0)
     (by simp) 0 (by simp),
   (construct_velocity_grids t0 (2, 2) 1).2.2.2.2.1⟩
